import Mathlib

/-!
Shallow embedding of `src/phenoai/logger.py`: a process-wide logging facade
over the standard Python `logging` substrate, with a stream channel and a
file channel, an indent filter, a colour/label filter, global mute/unmute
and an indent counter.

Python severity integers (`logging.DEBUG` … `logging.CRITICAL`) are kept as
the literal constants of the `logging` package.  The substrate semantics
used by the facade are those of CPython `logging`:
`logging.disable(lvl)` sets `Manager.disable := lvl`, and
`Logger.isEnabledFor(level)` returns false when `manager.disable >= level`
or when `level` is below the logger's effective level; `callHandlers`
passes one shared mutable record to every attached handler in order, and a
handler runs its filters and formats the record only when
`record.levelno >= handler.level`.
-/

namespace Phenoai

/-- `logging.NOTSET` -/
def NOTSET : Nat := 0
/-- `logging.DEBUG` -/
def DEBUG : Nat := 10
/-- `logging.INFO` -/
def INFO : Nat := 20
/-- `logging.WARNING` -/
def WARNING : Nat := 30
/-- `logging.ERROR` -/
def ERROR : Nat := 40
/-- `logging.CRITICAL` -/
def CRITICAL : Nat := 50

/-- Module constant `__streamchannel_defaultlvl__ = logging.INFO`. -/
def __streamchannel_defaultlvl__ : Nat := INFO

/-- Module constant `__filechannel_defaultlvl__ = logging.INFO`. -/
def __filechannel_defaultlvl__ : Nat := INFO

/-- Module constant `__indentunit__ = "  "` (two spaces). -/
def __indentunit__ : String := "  "

/-- `s` repeated `n` times (helper for Python string repetition). -/
def strRepeat (s : String) : Nat → String
  | 0 => ""
  | n + 1 => s ++ strRepeat s n

/-- Python string repetition `s * n` for an `int` n: a non-positive count
yields the empty string (`Int.toNat` clamps negatives to 0). -/
def pyStrMul (s : String) (n : Int) : String :=
  strRepeat s n.toNat

/-- Python format spec `"{:<w}"` (left align, pad with spaces to width w). -/
def pyLjust (w : Nat) (s : String) : String :=
  s ++ String.mk (List.replicate (w - s.length) ' ')

/-- Python format spec `"{:^w}"` (center, pad with spaces to width w; the
extra space of an odd margin goes to the right). -/
def pyCenter (w : Nat) (s : String) : String :=
  let pad := w - s.length
  let l := pad / 2
  String.mk (List.replicate l ' ') ++ s ++ String.mk (List.replicate (pad - l) ' ')

/-- The mutable `logging.LogRecord` attributes this module touches.
`levellabel` and `filteredmessage` are the custom attributes injected by
`ColourFilter.filter`; before any filter runs they are empty. -/
structure LogRecord where
  levelno : Nat
  levelname : String
  msg : String
  levellabel : String
  filteredmessage : String
  deriving DecidableEq, Repr

/-- `ColourFilter.filter` from the source: when `__colouredstream__` holds,
injects an ANSI-coloured fixed-width label per severity (CRITICAL also wraps
the message body in colour); otherwise injects the severity name centered in
an 8-character field and leaves the message untouched. -/
def ColourFilter.filter (colouredstream : Bool) (r : LogRecord) : LogRecord :=
  if colouredstream then
    if r.levelno = DEBUG then
      { r with levellabel := " \x1b[94mDEBUG\x1b[0m  ", filteredmessage := r.msg }
    else if r.levelno = INFO then
      { r with levellabel := "  INFO  ", filteredmessage := r.msg }
    else if r.levelno = WARNING then
      { r with levellabel := "\x1b[93mWARNING\x1b[0m ", filteredmessage := r.msg }
    else if r.levelno = ERROR then
      { r with levellabel := " \x1b[91mERROR\x1b[0m  ", filteredmessage := r.msg }
    else if r.levelno = CRITICAL then
      { r with levellabel := "\x1b[1m\x1b[91mCRITICAL\x1b[0m\x1b[0m",
               filteredmessage := "\x1b[91m" ++ r.msg ++ "\x1b[0m" }
    else r
  else
    { r with levellabel := pyCenter 8 r.levelname, filteredmessage := r.msg }

/-- `IndentFilter.filter` from the source: mutates
`record.msg := __indentunit__ * __indentlevel__ + record.msg`. -/
def IndentFilter.filter (indentlevel : Int) (r : LogRecord) : LogRecord :=
  { r with msg := pyStrMul __indentunit__ indentlevel ++ r.msg }

/-- The two filter classes that can be attached to a handler. -/
inductive FilterKind
  | indentF
  | colourF
  deriving DecidableEq, Repr

/-- The two formatters built by `to_stream` / `to_file`:
`"{asctime:<23} | {levellabel} | {filteredmessage}"` and
`"{asctime:<23} | {levelname:^8} | {message}"`. -/
inductive FormatKind
  | streamFmt
  | fileFmt
  deriving DecidableEq, Repr

/-- The `logging.StreamHandler` held in `__streamchannel__`. -/
structure StreamChannel where
  level : Nat
  filters : List FilterKind
  formatter : FormatKind
  deriving DecidableEq, Repr

/-- The `logging.FileHandler` held in `__filechannel__`. -/
structure FileChannel where
  level : Nat
  path : String
  filters : List FilterKind
  formatter : FormatKind
  deriving DecidableEq, Repr

/-- Which handler object an entry of the substrate logger's handler list
refers to (at most one of each exists at a time, so a kind identifies it). -/
inductive ChannelKind
  | stream
  | file
  deriving DecidableEq, Repr

/-- The process-wide state: the module globals (`__streamchannel__`,
`__filechannel__`, `__colouredstream__`, `__indentlevel__`) together with
the parts of the `logging` substrate the module drives (the named logger's
handler list and level, and `Manager.disable`). -/
structure LoggerState where
  streamchannel : Option StreamChannel
  filechannel : Option FileChannel
  handlers : List ChannelKind
  loggerLevel : Nat
  colouredstream : Bool
  indentlevel : Int
  disable : Nat
  deriving DecidableEq, Repr

/-- State before module initialization runs: no channels, indent 0, colour
on, nothing disabled; the fresh logger's effective level is the root's
default WARNING. -/
def emptyState : LoggerState :=
  { streamchannel := none
    filechannel := none
    handlers := []
    loggerLevel := WARNING
    colouredstream := true
    indentlevel := 0
    disable := NOTSET }

/-- `to_stream(lvl=None, colour=True)`: create the stream handler (with
indent and colour filters, the stream formatter, and registration with the
logger) only when `__streamchannel__ is None`; in all cases set the logger
level to DEBUG, set the handler level to `lvl` (default
`__streamchannel_defaultlvl__` when None), and set `__colouredstream__`. -/
def to_stream (st : LoggerState) (lvl : Option Nat) (colour : Bool) : LoggerState :=
  if st.streamchannel.isSome then
    { st with
      loggerLevel := DEBUG
      streamchannel := st.streamchannel.map
        (fun c => { c with level := lvl.getD __streamchannel_defaultlvl__ })
      colouredstream := colour }
  else
    { st with
      loggerLevel := DEBUG
      streamchannel := some
        { level := lvl.getD __streamchannel_defaultlvl__
          filters := [.indentF, .colourF]
          formatter := .streamFmt }
      handlers := st.handlers ++ [.stream]
      colouredstream := colour }

/-- `to_file(logpath, lvl=None)`: create the file handler at `logpath`
(with only the indent filter, the file formatter, and registration with the
logger) only when `__filechannel__ is None`; in all cases set the handler
level to `lvl` (default `__filechannel_defaultlvl__` when None).  The
logger level and `__colouredstream__` are not touched. -/
def to_file (st : LoggerState) (logpath : String) (lvl : Option Nat) : LoggerState :=
  if st.filechannel.isSome then
    { st with
      filechannel := st.filechannel.map
        (fun c => { c with level := lvl.getD __filechannel_defaultlvl__ }) }
  else
    { st with
      filechannel := some
        { level := lvl.getD __filechannel_defaultlvl__
          path := logpath
          filters := [.indentF]
          formatter := .fileFmt }
      handlers := st.handlers ++ [.file] }

/-- `remove_file_channel()`: when a file handler exists, remove it from the
logger's handler list and clear the slot; otherwise do nothing. -/
def remove_file_channel (st : LoggerState) : LoggerState :=
  if st.filechannel.isSome then
    { st with
      handlers := st.handlers.erase ChannelKind.file
      filechannel := none }
  else st

/-- `remove_stream_channel()`: when a stream handler exists, remove it from
the logger's handler list and clear the slot; otherwise do nothing. -/
def remove_stream_channel (st : LoggerState) : LoggerState :=
  if st.streamchannel.isSome then
    { st with
      handlers := st.handlers.erase ChannelKind.stream
      streamchannel := none }
  else st

/-- `mute(lvl=logging.CRITICAL)`: calls `logging.disable(lvl)`, i.e. sets
`Manager.disable := lvl`. -/
def mute (st : LoggerState) (lvl : Nat) : LoggerState :=
  { st with disable := lvl }

/-- `unmute()`: calls `logging.disable(logging.NOTSET)`. -/
def unmute (st : LoggerState) : LoggerState :=
  { st with disable := NOTSET }

/-- The possible Python values handed to `set_indent`: an `int`, a `str`,
`None`, or a value of any other type. -/
inductive IndentArg
  | int (n : Int)
  | str (s : String)
  | none
  | other
  deriving DecidableEq, Repr

/-- `set_indent(lvl)`: an `int` sets `__indentlevel__` absolutely, `"+"`
increments it, `"-"` decrements it, any other string raises, `None` falls
through all branches (no-op), and any other value raises
`Exception("Indent level not recognized")`. -/
def set_indent (st : LoggerState) (lvl : IndentArg) : Except String LoggerState :=
  match lvl with
  | .int n => .ok { st with indentlevel := n }
  | .str s =>
    if s = "+" then .ok { st with indentlevel := st.indentlevel + 1 }
    else if s = "-" then .ok { st with indentlevel := st.indentlevel - 1 }
    else .error "Indent level not recognized"
  | .none => .ok st
  | .other => .error "Indent level not recognized"

/-- `colour_stream(colour=True)`: sets `__colouredstream__ = bool(colour)`. -/
def colour_stream (st : LoggerState) (colour : Bool) : LoggerState :=
  { st with colouredstream := colour }

/-- Run a handler's filter list over the (shared, mutated) record, in
attachment order; the filters read the process-wide globals. -/
def applyFilters (st : LoggerState) (fs : List FilterKind) (r : LogRecord) : LogRecord :=
  fs.foldl
    (fun r0 f =>
      match f with
      | .indentF => IndentFilter.filter st.indentlevel r0
      | .colourF => ColourFilter.filter st.colouredstream r0)
    r

/-- `logging.Formatter.format` for the two formatters built in the source:
`asctime` (already rendered, width-23 left aligned) is an input here. -/
def formatWith (fmt : FormatKind) (asctime : String) (r : LogRecord) : String :=
  match fmt with
  | .streamFmt => pyLjust 23 asctime ++ " | " ++ r.levellabel ++ " | " ++ r.filteredmessage
  | .fileFmt => pyLjust 23 asctime ++ " | " ++ pyCenter 8 r.levelname ++ " | " ++ r.msg

/-- `Handler.handle` as invoked by `Logger.callHandlers` for one handler:
when `record.levelno >= handler.level`, run the handler's filters (which
mutate the shared record) and produce the formatted line; otherwise the
record passes through untouched and nothing is written. -/
def runHandler (st : LoggerState) (k : ChannelKind) (asctime : String) (r : LogRecord) :
    LogRecord × Option String :=
  match k with
  | .stream =>
    match st.streamchannel with
    | Option.none => (r, Option.none)
    | some c =>
      if c.level ≤ r.levelno then
        let r2 := applyFilters st c.filters r
        (r2, some (formatWith c.formatter asctime r2))
      else (r, Option.none)
  | .file =>
    match st.filechannel with
    | Option.none => (r, Option.none)
    | some c =>
      if c.level ≤ r.levelno then
        let r2 := applyFilters st c.filters r
        (r2, some (formatWith c.formatter asctime r2))
      else (r, Option.none)

/-- `Logger.callHandlers`: the one record is passed to each attached
handler in order; mutations made by one handler's filters are seen by the
next handler.  Returns the lines written, in order. -/
def callHandlers (st : LoggerState) (asctime : String) (r : LogRecord) : List String :=
  (st.handlers.foldl
    (fun (acc : LogRecord × List String) k =>
      let step := runHandler st k asctime acc.1
      (step.1, acc.2 ++ step.2.toList))
    (r, [])).2

/-- `Logger.debug/info/...` body: `isEnabledFor` (false when
`manager.disable >= levelno` or `levelno < effective level`), then build
the record and call the handlers. -/
def emitAt (st : LoggerState) (levelno : Nat) (levelname message asctime : String) :
    List String :=
  if st.disable ≥ levelno then []
  else if st.loggerLevel ≤ levelno then
    callHandlers st asctime
      { levelno := levelno, levelname := levelname, msg := message,
        levellabel := "", filteredmessage := "" }
  else []

/-- `debug(message, indent=None)`: `set_indent(indent)` (which may raise),
then emit at DEBUG. -/
def debug (st : LoggerState) (message : String) (indent : IndentArg) (asctime : String) :
    Except String (LoggerState × List String) :=
  match set_indent st indent with
  | .error e => .error e
  | .ok st2 => .ok (st2, emitAt st2 DEBUG "DEBUG" message asctime)

/-- `info(message, indent=None)`. -/
def info (st : LoggerState) (message : String) (indent : IndentArg) (asctime : String) :
    Except String (LoggerState × List String) :=
  match set_indent st indent with
  | .error e => .error e
  | .ok st2 => .ok (st2, emitAt st2 INFO "INFO" message asctime)

/-- `warning(message, indent=None)`. -/
def warning (st : LoggerState) (message : String) (indent : IndentArg) (asctime : String) :
    Except String (LoggerState × List String) :=
  match set_indent st indent with
  | .error e => .error e
  | .ok st2 => .ok (st2, emitAt st2 WARNING "WARNING" message asctime)

/-- `error(message, indent=None)`. -/
def error (st : LoggerState) (message : String) (indent : IndentArg) (asctime : String) :
    Except String (LoggerState × List String) :=
  match set_indent st indent with
  | .error e => .error e
  | .ok st2 => .ok (st2, emitAt st2 ERROR "ERROR" message asctime)

/-- `critical(exception, indent=None)`. -/
def critical (st : LoggerState) (message : String) (indent : IndentArg) (asctime : String) :
    Except String (LoggerState × List String) :=
  match set_indent st indent with
  | .error e => .error e
  | .ok st2 => .ok (st2, emitAt st2 CRITICAL "CRITICAL" message asctime)

/-- Module initialization: `if __streamchannel__ is None: to_stream()`.
The state at the end of `import phenoai.logger`. -/
def initState : LoggerState :=
  if emptyState.streamchannel.isSome then emptyState
  else to_stream emptyState Option.none true

/-- Registry well-formedness: a channel slot is filled exactly when the
corresponding handler is attached to the substrate logger, and each kind is
attached at most once.  It holds at module initialization and is preserved
by every operation. -/
def wf (st : LoggerState) : Prop :=
  (st.streamchannel.isSome ↔ ChannelKind.stream ∈ st.handlers) ∧
  (st.filechannel.isSome ↔ ChannelKind.file ∈ st.handlers) ∧
  st.handlers.count ChannelKind.stream ≤ 1 ∧
  st.handlers.count ChannelKind.file ≤ 1

instance (st : LoggerState) : Decidable (wf st) := by
  unfold wf
  infer_instance

/-- ANSI-escape stripper: drop every maximal run starting at ESC (`\x1b`)
up to and including the terminating `m` of the CSI colour sequence. -/
def stripAnsiGo : Bool → List Char → List Char
  | _, [] => []
  | true, c :: rest => if c = 'm' then stripAnsiGo false rest else stripAnsiGo true rest
  | false, c :: rest =>
    if c = '\x1b' then stripAnsiGo true rest else c :: stripAnsiGo false rest

/-- Strip ANSI colour escape sequences from a string. -/
def stripAnsi (s : String) : String :=
  String.mk (stripAnsiGo false s.data)

/-- Whether a string contains the ESC character (i.e. any ANSI escape). -/
def hasEsc (s : String) : Bool :=
  s.data.any (fun c => c = '\x1b')

/-! Helper lemmas -/

theorem strRepeat_add (s : String) (a b : Nat) :
    strRepeat s (a + b) = strRepeat s a ++ strRepeat s b := by
  induction a with
  | zero => simp [strRepeat, String.empty_append]
  | succ n ih =>
    have h : n + 1 + b = (n + b) + 1 := by omega
    rw [h]
    show s ++ strRepeat s (n + b) = (s ++ strRepeat s n) ++ strRepeat s b
    rw [ih, String.append_assoc]

theorem hasEsc_append (a b : String) : hasEsc (a ++ b) = (hasEsc a || hasEsc b) := by
  simp [hasEsc, String.data_append]

theorem hasEsc_spaces (k : Nat) : hasEsc (String.mk (List.replicate k ' ')) = false := by
  rw [Bool.eq_false_iff]
  intro hcontra
  rw [hasEsc, List.any_eq_true] at hcontra
  obtain ⟨c, hmem, hc⟩ := hcontra
  rw [List.mem_replicate] at hmem
  rw [hmem.2] at hc
  simp at hc

theorem hasEsc_pyLjust (w : Nat) (s : String) :
    hasEsc (pyLjust w s) = hasEsc s := by
  rw [pyLjust, hasEsc_append, hasEsc_spaces, Bool.or_false]

theorem hasEsc_pyCenter (w : Nat) (s : String) :
    hasEsc (pyCenter w s) = hasEsc s := by
  rw [pyCenter]
  rw [hasEsc_append, hasEsc_append, hasEsc_spaces, hasEsc_spaces,
    Bool.false_or, Bool.or_false]

/-! Claim theorems -/

/-- C1: the claim says that after `mute(L)` an emit at exactly `L` still
produces output.  On the code this fails: `mute(lvl)` is
`logging.disable(lvl)`, and CPython's `Logger.isEnabledFor` returns false
whenever `manager.disable >= levelno`, so records at exactly `L` are also
suppressed.  After `mute(WARNING)` a WARNING emit produces no output on any
channel, while an ERROR emit still writes its line. -/
theorem C1_mute_boundary_inclusive :
    warning (mute initState WARNING) "hello" IndentArg.none "ts" =
      Except.ok (mute initState WARNING, []) ∧
    error (mute initState WARNING) "hello" IndentArg.none "ts" =
      Except.ok (mute initState WARNING,
        [pyLjust 23 "ts" ++ " | " ++ " \x1b[91mERROR\x1b[0m  " ++ " | " ++ "hello"]) := by
  refine ⟨rfl, ?_⟩
  rfl

/-- C2: `IndentFilter.filter` prefixes the record message with the
two-space indent unit repeated `max(indentLevel, 0)` times: exactly `n`
copies for `n ≥ 0`, and zero copies (no error) for negative `n`. -/
theorem C2_indent_transform (n : Int) (r : LogRecord) :
    (IndentFilter.filter n r).msg = strRepeat __indentunit__ (max n 0).toNat ++ r.msg ∧
    (0 ≤ n → (IndentFilter.filter n r).msg = strRepeat __indentunit__ n.toNat ++ r.msg) ∧
    (n < 0 → (IndentFilter.filter n r).msg = r.msg) := by
  refine ⟨?_, fun _ => rfl, ?_⟩
  · have h : (max n 0).toNat = n.toNat := by omega
    rw [h]
    rfl
  · intro hn
    have h : n.toNat = 0 := by omega
    show pyStrMul __indentunit__ n ++ r.msg = r.msg
    rw [pyStrMul, h]
    exact String.empty_append r.msg

/-- Witness for C2 at the concrete negative level −2. -/
theorem C2_indent_transform_witness :
    (IndentFilter.filter (-2)
      { levelno := 10, levelname := "DEBUG", msg := "hi",
        levellabel := "", filteredmessage := "" }).msg = "hi" :=
  (C2_indent_transform (-2)
    { levelno := 10, levelname := "DEBUG", msg := "hi",
      levellabel := "", filteredmessage := "" }).2.2 (by decide)

/-- C3: `set_indent` sets the counter absolutely on an integer, increments
on `"+"`, decrements on `"-"` (no lower bound), is a no-op on `None`, and
raises synchronously on any other input (any other string, or a value of
any other type), emitting nothing. -/
theorem C3_set_indent_dispatch (st : LoggerState) (n : Int) (s : String) :
    set_indent st (IndentArg.int n) = Except.ok { st with indentlevel := n } ∧
    set_indent st (IndentArg.str "+") =
      Except.ok { st with indentlevel := st.indentlevel + 1 } ∧
    set_indent st (IndentArg.str "-") =
      Except.ok { st with indentlevel := st.indentlevel - 1 } ∧
    set_indent st IndentArg.none = Except.ok st ∧
    (s ≠ "+" → s ≠ "-" →
      set_indent st (IndentArg.str s) = Except.error "Indent level not recognized") ∧
    set_indent st IndentArg.other = Except.error "Indent level not recognized" := by
  refine ⟨rfl, rfl, rfl, rfl, ?_, rfl⟩
  intro h1 h2
  simp [set_indent, h1, h2]

/-- Witness for C3: the unrecognized string directive `"x"` raises. -/
theorem C3_set_indent_dispatch_witness :
    set_indent initState (IndentArg.str "x") =
      Except.error "Indent level not recognized" :=
  (C3_set_indent_dispatch initState 5 "x").2.2.2.2.1 (by decide) (by decide)

/-- C8: with colour on, the five severity labels all strip to rendered
width 8 (INFO's label carries no escape codes at all); with colour off, the
label is the severity name centered in an 8-character field and the message
is untouched; the centered form of each of the five names has width 8. -/
theorem C8_label_widths (r : LogRecord) :
    (stripAnsi (ColourFilter.filter true { r with levelno := DEBUG }).levellabel).length = 8 ∧
    (stripAnsi (ColourFilter.filter true { r with levelno := INFO }).levellabel).length = 8 ∧
    (stripAnsi (ColourFilter.filter true { r with levelno := WARNING }).levellabel).length = 8 ∧
    (stripAnsi (ColourFilter.filter true { r with levelno := ERROR }).levellabel).length = 8 ∧
    (stripAnsi (ColourFilter.filter true { r with levelno := CRITICAL }).levellabel).length = 8 ∧
    hasEsc (ColourFilter.filter true { r with levelno := INFO }).levellabel = false ∧
    (ColourFilter.filter false r).levellabel = pyCenter 8 r.levelname ∧
    (ColourFilter.filter false r).msg = r.msg ∧
    (ColourFilter.filter false r).filteredmessage = r.msg ∧
    (pyCenter 8 "DEBUG").length = 8 ∧
    (pyCenter 8 "INFO").length = 8 ∧
    (pyCenter 8 "WARNING").length = 8 ∧
    (pyCenter 8 "ERROR").length = 8 ∧
    (pyCenter 8 "CRITICAL").length = 8 :=
  ⟨rfl, rfl, rfl, rfl, rfl, rfl, rfl, rfl, rfl, rfl, rfl, rfl, rfl, rfl⟩

/-- C10: at the end of module initialization the stream channel is present
with the default level INFO and Colour Mode enabled, and the file channel
is absent. -/
theorem C10_initial_state :
    initState.streamchannel =
      some { level := INFO, filters := [.indentF, .colourF], formatter := .streamFmt } ∧
    initState.filechannel = Option.none ∧
    initState.colouredstream = true ∧
    initState.handlers = [ChannelKind.stream] :=
  ⟨rfl, rfl, rfl, rfl⟩

/-- C5: enabling the stream channel with `L1` and then with `L2` leaves
exactly one stream handler attached to the substrate logger, with minimum
severity `L2` in effect, and the registry well-formedness (at most one live
stream channel) is preserved. -/
theorem C5_stream_idempotent (st : LoggerState) (h : wf st) (L1 L2 : Nat) (c1 c2 : Bool) :
    (to_stream (to_stream st (some L1) c1) (some L2) c2).handlers.count ChannelKind.stream = 1 ∧
    (to_stream (to_stream st (some L1) c1) (some L2) c2).streamchannel.map
      StreamChannel.level = some L2 ∧
    wf (to_stream (to_stream st (some L1) c1) (some L2) c2) := by
  obtain ⟨hs, hf, hcs, hcf⟩ := h
  cases hsc : st.streamchannel with
  | none =>
    have hnotmem : ChannelKind.stream ∉ st.handlers := by
      intro hmem
      have := hs.mpr hmem
      rw [hsc] at this
      simp at this
    have hzero : st.handlers.count ChannelKind.stream = 0 := List.count_eq_zero.mpr hnotmem
    refine ⟨?_, ?_, ?_, ?_, ?_, ?_⟩
    · simp [to_stream, hsc, List.count_append, hzero]
    · simp [to_stream, hsc]
    · simp [to_stream, hsc]
    · simp only [to_stream, hsc]
      simpa using hf
    · simp [to_stream, hsc, List.count_append, hzero]
    · simp only [to_stream, hsc]
      simp only [Option.isSome_none, Bool.false_eq_true, if_false, Option.isSome_some, if_true]
      simpa [List.count_append] using hcf
  | some c =>
    have hmem : ChannelKind.stream ∈ st.handlers := hs.mp (by rw [hsc]; rfl)
    have hone : st.handlers.count ChannelKind.stream = 1 := by
      have hne : st.handlers.count ChannelKind.stream ≠ 0 := by
        rw [Ne, List.count_eq_zero]
        intro hq
        exact hq hmem
      omega
    refine ⟨?_, ?_, ?_, ?_, ?_, ?_⟩
    · simp [to_stream, hsc, hone]
    · simp [to_stream, hsc]
    · simp [to_stream, hsc, hmem]
    · simp only [to_stream, hsc]
      simpa using hf
    · simp [to_stream, hsc, hone]
    · simp only [to_stream, hsc]
      simpa using hcf

/-- Witness for C5 at the module's initial state with levels 10 then 40. -/
theorem C5_stream_idempotent_witness :
    (to_stream (to_stream initState (some 10) true) (some 40) false).handlers.count
      ChannelKind.stream = 1 ∧
    (to_stream (to_stream initState (some 10) true) (some 40) false).streamchannel.map
      StreamChannel.level = some 40 ∧
    wf (to_stream (to_stream initState (some 10) true) (some 40) false) :=
  C5_stream_idempotent initState (by decide) 10 40 true false

/-- C6: re-enabling the file channel while one is live only updates its
minimum severity level (to `lvl2`, defaulting to INFO): the path, filters
and formatter of the channel are unchanged, no handler is added or removed,
and every other piece of process state is untouched. -/
theorem C6_file_reenable_frame (st : LoggerState) (fc : FileChannel)
    (h : st.filechannel = some fc) (p2 : String) (lvl2 : Option Nat) :
    to_file st p2 lvl2 =
      { st with
        filechannel := some ({ fc with level := lvl2.getD __filechannel_defaultlvl__ }) } ∧
    (to_file st p2 lvl2).filechannel.map FileChannel.path = some fc.path ∧
    (to_file st p2 lvl2).filechannel.map FileChannel.filters = some fc.filters ∧
    (to_file st p2 lvl2).filechannel.map FileChannel.formatter = some fc.formatter ∧
    (to_file st p2 lvl2).handlers = st.handlers ∧
    (to_file st p2 lvl2).streamchannel = st.streamchannel ∧
    (to_file st p2 lvl2).colouredstream = st.colouredstream ∧
    (to_file st p2 lvl2).indentlevel = st.indentlevel ∧
    (to_file st p2 lvl2).disable = st.disable ∧
    (to_file st p2 lvl2).loggerLevel = st.loggerLevel := by
  refine ⟨?_, ?_, ?_, ?_, ?_, ?_, ?_, ?_, ?_, ?_⟩ <;> simp [to_file, h]

/-- Witness for C6: a live channel at `"a.log"` re-enabled with `"b.log"`
keeps its path and only moves its level to 40. -/
theorem C6_file_reenable_frame_witness :
    to_file (to_file initState "a.log" (some 10)) "b.log" (some 40) =
      { to_file initState "a.log" (some 10) with
        filechannel := some ({ level := 40, path := "a.log", filters := [.indentF],
                               formatter := .fileFmt }) } ∧
    (to_file (to_file initState "a.log" (some 10)) "b.log" (some 40)).filechannel.map
      FileChannel.path = some "a.log" :=
  ⟨(C6_file_reenable_frame (to_file initState "a.log" (some 10))
      { level := 10, path := "a.log", filters := [.indentF], formatter := .fileFmt }
      rfl "b.log" (some 40)).1,
   (C6_file_reenable_frame (to_file initState "a.log" (some 10))
      { level := 10, path := "a.log", filters := [.indentF], formatter := .fileFmt }
      rfl "b.log" (some 40)).2.1⟩

/-- C9: `remove_file_channel` / `remove_stream_channel` are no-ops (raising
nothing — they are total) when the respective channel is absent, and when
it is present they clear the registry slot and detach the handler from the
substrate logger, leaving the other channel alone. -/
theorem C9_disable_noop_or_detach (st : LoggerState) (h : wf st) :
    (st.filechannel = Option.none → remove_file_channel st = st) ∧
    (st.streamchannel = Option.none → remove_stream_channel st = st) ∧
    (st.filechannel.isSome = true →
      (remove_file_channel st).filechannel = Option.none ∧
      ChannelKind.file ∉ (remove_file_channel st).handlers ∧
      (remove_file_channel st).streamchannel = st.streamchannel) ∧
    (st.streamchannel.isSome = true →
      (remove_stream_channel st).streamchannel = Option.none ∧
      ChannelKind.stream ∉ (remove_stream_channel st).handlers ∧
      (remove_stream_channel st).filechannel = st.filechannel) := by
  obtain ⟨hs, hf, hcs, hcf⟩ := h
  refine ⟨?_, ?_, ?_, ?_⟩
  · intro h0
    simp [remove_file_channel, h0]
  · intro h0
    simp [remove_stream_channel, h0]
  · intro h0
    refine ⟨by simp [remove_file_channel, h0], ?_, by simp [remove_file_channel, h0]⟩
    simp only [remove_file_channel, h0, if_true]
    rw [← List.count_eq_zero (a := ChannelKind.file)]
    rw [List.count_erase_self]
    omega
  · intro h0
    refine ⟨by simp [remove_stream_channel, h0], ?_, by simp [remove_stream_channel, h0]⟩
    simp only [remove_stream_channel, h0, if_true]
    rw [← List.count_eq_zero (a := ChannelKind.stream)]
    rw [List.count_erase_self]
    omega

/-- Witness for C9 at the initial state: removing the absent file channel
changes nothing, and removing the present stream channel clears its slot. -/
theorem C9_disable_noop_or_detach_witness :
    remove_file_channel initState = initState ∧
    (remove_stream_channel initState).streamchannel = Option.none ∧
    ChannelKind.stream ∉ (remove_stream_channel initState).handlers := by
  refine ⟨(C9_disable_noop_or_detach initState (by decide)).1 rfl, ?_, ?_⟩
  · exact ((C9_disable_noop_or_detach initState (by decide)).2.2.2 (by decide)).1
  · exact ((C9_disable_noop_or_detach initState (by decide)).2.2.2 (by decide)).2.1

/-- C7: the file channel is created with only the indent filter (never the
colour filter) and the file formatter, so its filter pipeline is exactly
the indent transform for any global Colour Mode; its line format is the
timestamp, the severity name centered in an 8-character field, and the
message, and contains no colour escape codes when its inputs contain
none. -/
theorem C7_file_channel_uncoloured (st st2 : LoggerState)
    (h : st.filechannel = Option.none) (path : String) (lvl : Option Nat)
    (asctime : String) (r : LogRecord) :
    (to_file st path lvl).filechannel.map FileChannel.filters =
      some [FilterKind.indentF] ∧
    (to_file st path lvl).filechannel.map FileChannel.formatter =
      some FormatKind.fileFmt ∧
    applyFilters st2 [FilterKind.indentF] r = IndentFilter.filter st2.indentlevel r ∧
    formatWith FormatKind.fileFmt asctime r =
      pyLjust 23 asctime ++ " | " ++ pyCenter 8 r.levelname ++ " | " ++ r.msg ∧
    (hasEsc r.msg = false → hasEsc r.levelname = false → hasEsc asctime = false →
      hasEsc (formatWith FormatKind.fileFmt asctime r) = false) := by
  refine ⟨by simp [to_file, h], by simp [to_file, h], rfl, rfl, ?_⟩
  intro h1 h2 h3
  show hasEsc (pyLjust 23 asctime ++ " | " ++ pyCenter 8 r.levelname ++ " | " ++ r.msg) =
    false
  rw [hasEsc_append, hasEsc_append, hasEsc_append, hasEsc_append,
    hasEsc_pyLjust, hasEsc_pyCenter, h1, h2, h3]
  rfl

/-- Witness for C7: the file line for an ERROR record with a plain message
and timestamp carries no colour escape codes. -/
theorem C7_file_channel_uncoloured_witness :
    hasEsc (formatWith FormatKind.fileFmt "ts"
      { levelno := 40, levelname := "ERROR", msg := "boom",
        levellabel := "", filteredmessage := "" }) = false :=
  (C7_file_channel_uncoloured emptyState initState rfl "log.txt" Option.none "ts"
    { levelno := 40, levelname := "ERROR", msg := "boom",
      levellabel := "", filteredmessage := "" }).2.2.2.2 rfl rfl rfl

/-- C4: with both channels attached (stream first, file second) and the
indent level set to `n > 0` by the emit call, a single ERROR emit writes
the stream line with `n` indent units but the file line with `2n` units:
both handlers' IndentFilter instances mutate the same record's message in
turn, so the channel processed second sees the already-indented text. -/
theorem C4_cumulative_indent (n : Int) (hn : 0 < n) (msg asctime : String) :
    error (to_file initState "log.txt" Option.none) msg (IndentArg.int n) asctime =
      Except.ok
        ({ to_file initState "log.txt" Option.none with indentlevel := n },
         [pyLjust 23 asctime ++ " | " ++ " \x1b[91mERROR\x1b[0m  " ++ " | " ++
            (pyStrMul "  " n ++ msg),
          pyLjust 23 asctime ++ " | " ++ pyCenter 8 "ERROR" ++ " | " ++
            (pyStrMul "  " (2 * n) ++ msg)]) := by
  have h2 : pyStrMul "  " (2 * n) ++ msg =
      pyStrMul "  " n ++ (pyStrMul "  " n ++ msg) := by
    rw [pyStrMul, pyStrMul, show (2 * n).toNat = n.toNat + n.toNat from by omega,
      strRepeat_add, String.append_assoc]
  rw [h2]
  rfl

/-- Witness for C4 at indent level 1: the stream line carries one indent
unit, the file line two. -/
theorem C4_cumulative_indent_witness :
    error (to_file initState "log.txt" Option.none) "m" (IndentArg.int 1) "t" =
      Except.ok
        ({ to_file initState "log.txt" Option.none with indentlevel := 1 },
         [pyLjust 23 "t" ++ " | " ++ " \x1b[91mERROR\x1b[0m  " ++ " | " ++
            (pyStrMul "  " 1 ++ "m"),
          pyLjust 23 "t" ++ " | " ++ pyCenter 8 "ERROR" ++ " | " ++
            (pyStrMul "  " 2 ++ "m")]) :=
  C4_cumulative_indent 1 (by decide) "m" "t"

end Phenoai



